import Mathlib

/-!
Verification of the StudenTools diagram-generation pipeline.

The definitions below are a shallow embedding of src/diagram_generator.py
(the Graph Compiler generate_graphviz_dot and the Render Invoker
render_diagram_to_bytes) and of the diagram parts of src/main.py (the
pydantic models, the POST /generate-diagram/ handler, and the route table
of the FastAPI app). Line numbers in doc comments refer to those files.
-/

namespace StudenTools

/-- NodeModel from src/main.py lines 17-21: one graph node of a
DiagramRequest. -/
structure NodeModel where
  id : String
  name : String
  type : String
  has_local_db : Bool := false
deriving DecidableEq

/-- ConnectionModel from src/main.py lines 23-28: one typed directed
connection of a DiagramRequest. -/
structure ConnectionModel where
  source_id : String
  target_id : String
  label : String
  type : String
  direction : String
deriving DecidableEq

/-- DiagramData from src/main.py lines 30-34: the top-level diagram
request body. -/
structure DiagramData where
  company_name : String
  nodes : List NodeModel
  connections : List ConnectionModel
  general_network_description : String
deriving DecidableEq

/-- replaceChar l a b models Python str.replace with a single-character
pattern: every occurrence of the character a in l becomes b. -/
def replaceChar : List Char → Char → Char → List Char
  | [], _, _ => []
  | c :: cs, a, b => (if c = a then b else c) :: replaceChar cs a b

/-- sanitizeId models the expression
node["id"].replace(" ", "_").replace("-", "_") of
src/diagram_generator.py line 30: spaces and hyphens become underscores. -/
def sanitizeId (s : String) : String :=
  String.mk (replaceChar (replaceChar s.data ' ' '_') '-' '_')

/-- escQuote models Python .replace(with a double-quote pattern) used on the
footer text: every double quote becomes a backslash followed by a quote. -/
def escQuote : List Char → List Char
  | [] => []
  | c :: cs => if c = '"' then '\\' :: '"' :: escQuote cs else c :: escQuote cs

/-- escapeQuotes models
data.get("general_network_description", "").replace('"', '\\"') of
src/diagram_generator.py line 99, applied to the description string. -/
def escapeQuotes (s : String) : String :=
  String.mk (escQuote s.data)

/-- headerLines: the fixed header commands emitted by generate_graphviz_dot
(src/diagram_generator.py lines 15-25), the title line built from
company_name included. -/
def headerLines (company_name_title : String) : List String :=
  ["digraph G \x7b",
   "  charset=\"UTF-8\";",
   "  rankdir=TB;",
   "  node [style=filled, fontname=\"Helvetica\", fontsize=10];",
   "  edge [fontname=\"Helvetica\", fontsize=8];",
   "  labeljust=\"c\";",
   "  labelloc=\"t\";",
   "  label=\"" ++ company_name_title ++ "\";",
   "  fontsize=20;"]

/-- nodeAttrs: the (label, shape, fillcolor, fontcolor) quadruple as the
if/elif chain of src/diagram_generator.py lines 33-56 computes it from the
node's type (the database branch overrides the label with "BD"). -/
def nodeAttrs (node : NodeModel) : String × String × String × String :=
  if node.type = "server" then (node.name, "ellipse", "lightskyblue", "black")
  else if node.type = "branch" then (node.name, "box", "coral", "black")
  else if node.type = "headquarters" then (node.name, "box", "darkgray", "white")
  else if node.type = "db_management" then (node.name, "oval", "lightsteelblue", "black")
  else if node.type = "database" then ("BD", "ellipse", "plum", "black")
  else (node.name, "box", "white", "black")

/-- nodeDeclStr mirrors the node-declaration f-string of
src/diagram_generator.py line 57. -/
def nodeDeclStr (graphviz_id lab shape fillcolor fontcolor : String) : String :=
  "  \"" ++ graphviz_id ++ "\" [label=\"" ++ lab ++ "\", shape=\"" ++ shape ++
    "\", fillcolor=\"" ++ fillcolor ++ "\", fontcolor=\"" ++ fontcolor ++ "\"];"

/-- nodeLine emits the declaration for one node, exactly as one iteration of
the node loop of src/diagram_generator.py lines 29-57. -/
def nodeLine (node : NodeModel) : String :=
  let a := nodeAttrs node
  nodeDeclStr (sanitizeId node.id) a.1 a.2.1 a.2.2.1 a.2.2.2

/-- node_id_map_get models a lookup in the dict node_id_map built by the node
loop of src/diagram_generator.py lines 28-31: the value stored for a raw id
is the sanitized id of the last node carrying that raw id, and a key no node
carries is absent. -/
def node_id_map_get (nodes : List NodeModel) (key : String) : Option String :=
  (nodes.reverse.find? (fun n => n.id == key)).map (fun n => sanitizeId n.id)

/-- connAttrs: the (edge_label, color, style) triple as the if/elif chain of
src/diagram_generator.py lines 68-93 computes it from the connection's type;
the variables arrowhead and dir_attr are initialized to "normal" and
"dir=forward" and no branch changes them. -/
def connAttrs (conn : ConnectionModel) : String × String × String :=
  if conn.type = "sales_report" then ("Ventas", "darkgreen", "solid")
  else if conn.type = "inventory_report" then ("Inventario", "darkred", "solid")
  else if conn.type = "master_data_replication" then ("Datos Maestros", "blue", "dashed")
  else if conn.type = "network" then ("IP", "darkgreen", "solid")
  else if conn.type = "local_db_access" then ("", "darkgreen", "solid")
  else if conn.type = "management_link" then ("", "darkgreen", "solid")
  else (conn.label, "darkgreen", "solid")

/-- edgeLineStr mirrors the edge-declaration f-string of
src/diagram_generator.py line 96. -/
def edgeLineStr (src tgt lab arrowhead color style dir_attr : String) : String :=
  "  \"" ++ src ++ "\" -> \"" ++ tgt ++ "\" [label=\"" ++ lab ++
    "\", arrowhead=\"" ++ arrowhead ++ "\", color=\"" ++ color ++
    "\", style=\"" ++ style ++ "\" " ++ dir_attr ++ "];"

/-- connLine? emits the edge declaration for one connection, or none when the
looked-up source or target id is falsy in Python (absent from the map, or
equal to the empty string), mirroring one iteration of the connection loop of
src/diagram_generator.py lines 60-96 with its continue branch. -/
def connLine? (nodes : List NodeModel) (conn : ConnectionModel) : Option String :=
  match node_id_map_get nodes conn.source_id, node_id_map_get nodes conn.target_id with
  | some s, some t =>
    if s = "" ∨ t = "" then none
    else
      let a := connAttrs conn
      some (edgeLineStr s t a.1 "normal" a.2.1 a.2.2 "dir=forward")
  | _, _ => none

/-- footerLine emits the footer description node of
src/diagram_generator.py lines 99-105, with the quote-escaped description
embedded in an HTML-like table label. -/
def footerLine (general_network_description : String) : String :=
  "  footer_description [shape=box, style=\"filled\", fillcolor=\"lavenderblush\", " ++
  "color=\"purple\", fontcolor=\"black\", fontsize=10, " ++
  "label=<" ++
  "<TABLE BORDER=\"0\" CELLBORDER=\"0\" CELLSPACING=\"0\">" ++
  "<TR><TD ALIGN=\"LEFT\" WIDTH=\"500\">" ++
    escapeQuotes general_network_description ++ "</TD></TR>" ++
  "</TABLE>>];"

/-- rankSinkLine: the command of src/diagram_generator.py line 108 forcing
footer_description onto the sink rank. -/
def rankSinkLine : String := "  \x7b rank=sink; footer_description; \x7d"

/-- invisEdgeLine: the invisible ordering edge of src/diagram_generator.py
line 114, from the hardcoded anchor Yucatan_HQ to footer_description. -/
def invisEdgeLine : String := "  Yucatan_HQ -> footer_description [style=invis];"

/-- dot_commands: the full command list accumulated by generate_graphviz_dot
(src/diagram_generator.py lines 15-117) before the final join: header, one
declaration per node in input order, one edge per non-skipped connection in
input order, footer node, sink-rank constraint, invisible ordering edge,
closing brace. The node loop finishes before the connection loop starts, so
every connection is resolved against the completed node_id_map. -/
def dot_commands (data : DiagramData) : List String :=
  headerLines data.company_name ++
  data.nodes.map nodeLine ++
  data.connections.filterMap (connLine? data.nodes) ++
  [footerLine data.general_network_description, rankSinkLine, invisEdgeLine, "\x7d"]

/-- generate_graphviz_dot from src/diagram_generator.py line 118: the
commands joined with newlines. The company_name key is always present when
the endpoint calls this with DiagramData.dict(), so the .get default never
fires on this path. -/
def generate_graphviz_dot (data : DiagramData) : String :=
  String.intercalate "\n" (dot_commands data)

/-- replaceChar twice with the same replacement settles: replacing spaces and
hyphens with underscores a second time changes nothing, because the first
pass leaves no space and no hyphen. -/
theorem replaceChar_sanitize_idem (l : List Char) :
    replaceChar (replaceChar (replaceChar (replaceChar l ' ' '_') '-' '_') ' ' '_') '-' '_' =
      replaceChar (replaceChar l ' ' '_') '-' '_' := by
  induction l with
  | nil => rfl
  | cons c cs ih =>
    by_cases h1 : c = ' '
    · simp [replaceChar, h1, ih]
    · by_cases h2 : c = '-'
      · simp [replaceChar, h1, h2, ih]
      · simp [replaceChar, h1, h2, ih]

/-- C9: node-id sanitization is deterministic (equal raw ids sanitize
equally) and idempotent (sanitizing an already-sanitized id returns it
unchanged). -/
theorem sanitizeId_deterministic_idempotent :
    (∀ s t : String, s = t → sanitizeId s = sanitizeId t) ∧
    (∀ s : String, sanitizeId (sanitizeId s) = sanitizeId s) := by
  constructor
  · intro s t h
    rw [h]
  · intro s
    exact congrArg String.mk (replaceChar_sanitize_idem s.data)

/-- Witness for C9 at the concrete id "Sucursal Merida-1". -/
theorem sanitizeId_deterministic_idempotent_w :
    sanitizeId "Sucursal Merida-1" = sanitizeId "Sucursal Merida-1" ∧
    sanitizeId (sanitizeId "Sucursal Merida-1") = sanitizeId "Sucursal Merida-1" :=
  ⟨sanitizeId_deterministic_idempotent.1 "Sucursal Merida-1" "Sucursal Merida-1" rfl,
   sanitizeId_deterministic_idempotent.2 "Sucursal Merida-1"⟩

/-- specNodeStyle states the node style table of spec section 4.1, row for
row and in the table's order: server, branch, headquarters, db_management,
database, default. The prose colors name the Graphviz color tokens the
document language uses: light blue = lightskyblue, dark gray = darkgray,
light steel blue = lightsteelblue. The result is (label after any override,
shape, fill, font); only the database row overrides the label, to "BD". -/
def specNodeStyle (type name : String) : String × String × String × String :=
  if type = "server" then (name, "ellipse", "lightskyblue", "black")
  else if type = "branch" then (name, "box", "coral", "black")
  else if type = "headquarters" then (name, "box", "darkgray", "white")
  else if type = "db_management" then (name, "oval", "lightsteelblue", "black")
  else if type = "database" then ("BD", "ellipse", "plum", "black")
  else (name, "box", "white", "black")

/-- specConnStyle states the connection style table of spec section 4.1, row
for row: the result is (label after any override, color, line style), where
dark green = darkgreen and dark red = darkred; the default row keeps the
connection's original label unchanged. -/
def specConnStyle (type label : String) : String × String × String :=
  if type = "sales_report" then ("Ventas", "darkgreen", "solid")
  else if type = "inventory_report" then ("Inventario", "darkred", "solid")
  else if type = "master_data_replication" then ("Datos Maestros", "blue", "dashed")
  else if type = "network" then ("IP", "darkgreen", "solid")
  else if type = "local_db_access" then ("", "darkgreen", "solid")
  else if type = "management_link" then ("", "darkgreen", "solid")
  else (label, "darkgreen", "solid")

/-- C4: for every node, the emitted node declaration carries exactly the
section 4.1 table attributes for its type: the computed attribute quadruple
equals the spec table at (type, name) — so a server gets an ellipse with
lightskyblue fill, a branch a coral box, headquarters a darkgray box with
white font, db_management an oval with lightsteelblue fill, a database a
plum ellipse with label forced to "BD" whatever its name, and any other
type a white box with black font and the node's name — and the declaration
string is assembled from exactly that quadruple and the sanitized id. -/
theorem nodeLine_matches_spec_table (n : NodeModel) :
    nodeAttrs n = specNodeStyle n.type n.name ∧
    nodeLine n = nodeDeclStr (sanitizeId n.id) (specNodeStyle n.type n.name).1
      (specNodeStyle n.type n.name).2.1 (specNodeStyle n.type n.name).2.2.1
      (specNodeStyle n.type n.name).2.2.2 :=
  ⟨rfl, rfl⟩

/-- connLine?_shape: every edge declaration the connection loop emits is the
edge f-string instantiated with the two resolved endpoint ids, the computed
(label, color, style) attributes, arrowhead normal and dir=forward. -/
theorem connLine?_shape (nodes : List NodeModel) (c : ConnectionModel) (line : String)
    (h : connLine? nodes c = some line) :
    ∃ s t, line = edgeLineStr s t (connAttrs c).1 "normal"
      (connAttrs c).2.1 (connAttrs c).2.2 "dir=forward" := by
  unfold connLine? at h
  cases hs : node_id_map_get nodes c.source_id with
  | none => rw [hs] at h; exact absurd h (by simp)
  | some s =>
    cases ht : node_id_map_get nodes c.target_id with
    | none => rw [hs, ht] at h; exact absurd h (by simp)
    | some t =>
      rw [hs, ht] at h
      dsimp only at h
      by_cases he : s = "" ∨ t = ""
      · rw [if_pos he] at h; exact absurd h (by simp)
      · rw [if_neg he] at h
        exact ⟨s, t, (Option.some.inj h).symm⟩

/-- C5: every edge declaration emitted for a connection with resolvable
endpoints carries exactly the section 4.1 table attributes for its type —
sales_report darkgreen solid "Ventas", inventory_report darkred solid
"Inventario", master_data_replication blue dashed "Datos Maestros", network
darkgreen solid "IP", local_db_access and management_link darkgreen solid
with blank label, any other type darkgreen solid with the original label —
together with arrowhead normal and dir=forward. -/
theorem edgeLine_matches_spec_table (nodes : List NodeModel) (c : ConnectionModel)
    (line : String) (h : connLine? nodes c = some line) :
    ∃ s t, line = edgeLineStr s t (specConnStyle c.type c.label).1 "normal"
      (specConnStyle c.type c.label).2.1 (specConnStyle c.type c.label).2.2
      "dir=forward" :=
  connLine?_shape nodes c line h

/-- wNodes and wConn: a one-node, one-connection request used by concrete
witnesses; the connection resolves to the sole node. -/
def wNodes : List NodeModel := [⟨"a", "A", "server", false⟩]

/-- wConn: a network-typed connection from the node of wNodes to itself. -/
def wConn : ConnectionModel := ⟨"a", "a", "Enlace", "network", "unidirectional"⟩

/-- Witness for C5 at the concrete connection wConn over wNodes. -/
theorem edgeLine_matches_spec_table_w :
    ∃ s t, edgeLineStr "a" "a" "IP" "normal" "darkgreen" "solid" "dir=forward" =
      edgeLineStr s t (specConnStyle wConn.type wConn.label).1 "normal"
        (specConnStyle wConn.type wConn.label).2.1
        (specConnStyle wConn.type wConn.label).2.2 "dir=forward" :=
  edgeLine_matches_spec_table wNodes wConn
    (edgeLineStr "a" "a" "IP" "normal" "darkgreen" "solid" "dir=forward") (by decide)

/-- eraseDirection forgets the direction field of a connection; two requests
agreeing after this erasure differ at most in their connections' direction
fields. -/
def eraseDirection (c : ConnectionModel) : ConnectionModel :=
  ⟨c.source_id, c.target_id, c.label, c.type, ""⟩

/-- connLine? never reads the direction field. -/
theorem connLine?_eraseDirection (nodes : List NodeModel) (c : ConnectionModel) :
    connLine? nodes (eraseDirection c) = connLine? nodes c := rfl

/-- Mapping eraseDirection over the connections before the connection loop
changes nothing in its output. -/
theorem filterMap_connLine_map_erase (nodes : List NodeModel) (l : List ConnectionModel) :
    (l.map eraseDirection).filterMap (connLine? nodes) = l.filterMap (connLine? nodes) := by
  rw [List.filterMap_map]
  have h : (connLine? nodes ∘ eraseDirection) = connLine? nodes :=
    funext fun c => connLine?_eraseDirection nodes c
  rw [h]

/-- C8: two requests identical except in their connections' direction fields
compile to identical documents, and every emitted edge declaration carries a
forward arrowhead (arrowhead normal, dir=forward) whether the connection was
declared unidirectional or bidirectional. -/
theorem direction_not_consulted :
    (∀ d₁ d₂ : DiagramData, d₁.company_name = d₂.company_name →
      d₁.nodes = d₂.nodes →
      d₁.general_network_description = d₂.general_network_description →
      d₁.connections.map eraseDirection = d₂.connections.map eraseDirection →
      generate_graphviz_dot d₁ = generate_graphviz_dot d₂) ∧
    (∀ (nodes : List NodeModel) (c : ConnectionModel) (line : String),
      connLine? nodes c = some line →
      ∃ s t lab color style, line = edgeLineStr s t lab "normal" color style "dir=forward") := by
  constructor
  · intro d₁ d₂ hcn hn hd hconn
    unfold generate_graphviz_dot dot_commands
    rw [hcn, hn, hd, ← filterMap_connLine_map_erase d₂.nodes d₁.connections, hconn,
      filterMap_connLine_map_erase]
  · intro nodes c line h
    obtain ⟨s, t, hst⟩ := connLine?_shape nodes c line h
    exact ⟨s, t, (connAttrs c).1, (connAttrs c).2.1, (connAttrs c).2.2, hst⟩

/-- wD1: a concrete request with a unidirectional connection. -/
def wD1 : DiagramData := ⟨"ACME", wNodes, [wConn], "Red"⟩

/-- wD2: the same request with the connection declared bidirectional. -/
def wD2 : DiagramData :=
  ⟨"ACME", wNodes, [⟨"a", "a", "Enlace", "network", "bidirectional"⟩], "Red"⟩

/-- Witness for C8: wD1 and wD2 differ only in a direction field and compile
to the same document. -/
theorem direction_not_consulted_w : generate_graphviz_dot wD1 = generate_graphviz_dot wD2 :=
  direction_not_consulted.1 wD1 wD2 rfl rfl rfl rfl

/-- CompletedProcess mirrors the fields of the object subprocess.run returns:
exit status and the captured stdout and stderr byte streams. -/
structure CompletedProcess where
  returncode : Nat
  stdout : List Nat
  stderr : List Nat
deriving DecidableEq

/-- DotProcBehavior: how the external dot process behaves on one invocation —
either it runs and terminates with an exit status and captured output
streams, or the executable is not found on the PATH. -/
inductive DotProcBehavior where
  | runs (returncode : Nat) (stdout stderr : List Nat)
  | executableMissing
deriving DecidableEq

/-- RenderError: the exceptions render_diagram_to_bytes can let escape. -/
inductive RenderError where
  | fileNotFoundError
  | calledProcessError (returncode : Nat) (stdout stderr : List Nat)
deriving DecidableEq

/-- subprocess_run_checked models the call subprocess.run with dot, the
script on standard input, capture_output=True and check=True
(src/diagram_generator.py lines 128-134): with check=True a non-zero exit
status raises CalledProcessError carrying the captured stdout and stderr, a
zero exit returns the completed process, and a missing executable raises
FileNotFoundError. -/
def subprocess_run_checked (behavior : DotProcBehavior) : Except RenderError CompletedProcess :=
  match behavior with
  | .executableMissing => .error .fileNotFoundError
  | .runs rc out err =>
      if rc = 0 then .ok ⟨rc, out, err⟩ else .error (.calledProcessError rc out err)

/-- render_diagram_to_bytes from src/diagram_generator.py lines 120-147:
returns result.stdout on success; every except clause only prints and then
re-raises, so the exception of subprocess_run_checked propagates unchanged
and no bytes are produced on failure. -/
def render_diagram_to_bytes (dot_script : String) (behavior : DotProcBehavior) :
    Except RenderError (List Nat) :=
  match subprocess_run_checked behavior with
  | .ok result => .ok result.stdout
  | .error e => .error e

/-- C2: for every compiled document and every engine invocation exiting with
a non-zero status, render_diagram_to_bytes raises CalledProcessError
carrying the engine's captured diagnostic stderr stream, and returns no
bytes at all. -/
theorem render_nonzero_exit_raises (dot_script : String) (rc : Nat)
    (out err : List Nat) (h : rc ≠ 0) :
    render_diagram_to_bytes dot_script (.runs rc out err) =
      .error (.calledProcessError rc out err) ∧
    ∀ bs : List Nat, render_diagram_to_bytes dot_script (.runs rc out err) ≠ .ok bs := by
  have hrun : subprocess_run_checked (.runs rc out err) =
      .error (.calledProcessError rc out err) := by
    unfold subprocess_run_checked
    dsimp only
    rw [if_neg h]
  constructor
  · unfold render_diagram_to_bytes
    rw [hrun]
  · intro bs hok
    unfold render_diagram_to_bytes at hok
    rw [hrun] at hok
    exact Except.noConfusion hok

/-- Witness for C2 at exit status 1 with stderr bytes [115, 121]. -/
theorem render_nonzero_exit_raises_w :
    render_diagram_to_bytes "digraph G \x7b \x7d" (.runs 1 [] [115, 121]) =
      .error (.calledProcessError 1 [] [115, 121]) :=
  (render_nonzero_exit_raises "digraph G \x7b \x7d" 1 [] [115, 121] (by decide)).1

/-- RenderOutcome abstracts what happens inside the try block of the
/generate-diagram/ handler: success with image bytes, the dot executable
missing, the engine exiting non-zero with decoded stderr text, or any other
exception with its message. -/
inductive RenderOutcome where
  | ok (imageBytes : List Nat)
  | fileNotFoundError
  | calledProcessError (stderrText : String)
  | otherError (msg : String)
deriving DecidableEq

/-- HttpResult: the externally observable result of an endpoint call — a
normal response with status, media type and body; an HTTPException whose
JSON body is a detail string; or an exception escaping the handler entirely,
in which case the framework answers with a generic 500 carrying no detail
field at all. -/
inductive HttpResult where
  | response (status : Nat) (mediaType : String) (body : List Nat)
  | httpException (status : Nat) (detail : String)
  | unhandledException (exc : String)
deriving DecidableEq

/-- mainModuleImports: the modules src/main.py imports (lines 1-12): fastapi,
fastapi.responses, pydantic, json, typing and the three generator modules.
The name subprocess is not among them. -/
def mainModuleImports : List String :=
  ["fastapi", "fastapi.responses", "pydantic", "json", "typing",
   "diagram_generator", "doc_generator", "ppt_generator"]

/-- generate_diagram_endpoint models the exception handling of the
/generate-diagram/ handler (src/main.py lines 64-83). Python checks except
clauses top to bottom: FileNotFoundError is a builtin and matches directly,
but the second clause names subprocess.CalledProcessError, and evaluating
the name subprocess in a module namespace that never imported it raises
NameError; that NameError escapes the whole try statement before the third
clause is considered — both when the original exception was
CalledProcessError and for any other non-FileNotFoundError exception. -/
def generate_diagram_endpoint (outcome : RenderOutcome) : HttpResult :=
  match outcome with
  | .ok imageBytes => .response 200 "image/png" imageBytes
  | .fileNotFoundError =>
      .httpException 500 "Graphviz 'dot' command not found on server."
  | .calledProcessError stderrText =>
      if mainModuleImports.contains "subprocess" then
        .httpException 500 ("Graphviz rendering failed. Stderr: " ++ stderrText)
      else
        .unhandledException "NameError: name 'subprocess' is not defined"
  | .otherError msg =>
      if mainModuleImports.contains "subprocess" then
        .httpException 500 ("An unexpected error occurred: " ++ msg)
      else
        .unhandledException "NameError: name 'subprocess' is not defined"

/-- C1 (code bug): when the render stage raises CalledProcessError the
endpoint never produces a 500 response whose JSON detail carries the
engine's stderr — the except clause names subprocess, which src/main.py does
not import, so for every stderr text the handler lookup raises NameError and
the exception escapes unhandled. -/
theorem calledProcessError_detail_never_sent (stderrText : String) :
    generate_diagram_endpoint (.calledProcessError stderrText) =
      .unhandledException "NameError: name 'subprocess' is not defined" ∧
    ∀ detail : String, generate_diagram_endpoint (.calledProcessError stderrText) ≠
      .httpException 500 detail := by
  constructor
  · rfl
  · intro detail h
    rw [show generate_diagram_endpoint (.calledProcessError stderrText) =
      .unhandledException "NameError: name 'subprocess' is not defined" from rfl] at h
    exact HttpResult.noConfusion h

/-- appRoutes: the route table of the FastAPI app declared in src/main.py —
every (HTTP method, path) pair registered by a decorator, in source order
(lines 59, 64, 86, 111, 132, 148). -/
def appRoutes : List (String × String) :=
  [("GET", "/"),
   ("POST", "/generate-diagram/"),
   ("POST", "/generate-docx/"),
   ("POST", "/generate-pptx/"),
   ("GET", "/example-docx-data"),
   ("GET", "/example-pptx-data")]

/-- C7 counterexample: the claimed GET /example-diagram-data operation is
absent from the app's route table. -/
theorem no_example_diagram_data_route :
    ("GET", "/example-diagram-data") ∉ appRoutes := by decide

/-- C7 amended: the app exposes literal-example endpoints only for the docx
and pptx payloads; no GET /example-diagram-data route exists. -/
theorem example_routes_only_docx_pptx :
    ("GET", "/example-docx-data") ∈ appRoutes ∧
    ("GET", "/example-pptx-data") ∈ appRoutes ∧
    ("GET", "/example-diagram-data") ∉ appRoutes := by decide

/-- replaceChar returns the empty list exactly on the empty list. -/
theorem replaceChar_eq_nil (l : List Char) (a b : Char) :
    replaceChar l a b = [] ↔ l = [] := by
  cases l with
  | nil => simp [replaceChar]
  | cons c cs => simp [replaceChar]

/-- sanitizeId maps no non-empty id to the empty string. -/
theorem sanitizeId_ne_empty (s : String) (h : s ≠ "") : sanitizeId s ≠ "" := by
  intro he
  apply h
  have hd : replaceChar (replaceChar s.data ' ' '_') '-' '_' = [] :=
    congrArg String.data he
  have h2 : s.data = [] :=
    (replaceChar_eq_nil _ _ _).mp ((replaceChar_eq_nil _ _ _).mp hd)
  exact congrArg String.mk h2

/-- node_id_map_get misses every key no node id equals. -/
theorem node_id_map_get_eq_none (nodes : List NodeModel) (key : String)
    (h : ∀ n ∈ nodes, n.id ≠ key) : node_id_map_get nodes key = none := by
  have hf : nodes.reverse.find? (fun n => n.id == key) = none := by
    rw [List.find?_eq_none]
    intro n hn
    simpa using h n (List.mem_reverse.mp hn)
  simp [node_id_map_get, hf]

/-- node_id_map_get answers every key some node id equals, with the
sanitized key. -/
theorem node_id_map_get_eq_some (nodes : List NodeModel) (key : String)
    (h : ∃ n ∈ nodes, n.id = key) :
    node_id_map_get nodes key = some (sanitizeId key) := by
  obtain ⟨n, hn, hid⟩ := h
  have hex : ∃ m ∈ nodes.reverse, ((fun x : NodeModel => x.id == key) m) = true :=
    ⟨n, List.mem_reverse.mpr hn, by simp [hid]⟩
  have hsome : (nodes.reverse.find? (fun x => x.id == key)).isSome :=
    List.find?_isSome.mpr hex
  obtain ⟨m, hm⟩ := Option.isSome_iff_exists.mp hsome
  have hmid : m.id = key := by simpa using List.find?_some hm
  simp [node_id_map_get, hm, hmid]

/-- cexNodes: two nodes, the first with the empty string as its raw id. -/
def cexNodes : List NodeModel :=
  [⟨"", "Nodo Vacio", "server", false⟩, ⟨"b", "Sucursal B", "branch", false⟩]

/-- cexConn: a connection whose source_id and target_id both match ids of
cexNodes (the source matches the empty-id node). -/
def cexConn : ConnectionModel := ⟨"", "b", "Enlace", "network", "unidirectional"⟩

/-- cexData: the request carrying cexNodes and the single connection
cexConn. -/
def cexData : DiagramData := ⟨"ACME", cexNodes, [cexConn], "Red"⟩

/-- C3 counterexample: in cexData the sole connection's source_id and
target_id both match declared node ids, yet the connection loop emits no
edge for it and the compiled document holds zero edge declarations — the
looked-up sanitized source id is the empty string, which the Python
truthiness test treats like a missing id, so this valid connection is
dropped. -/
theorem valid_connection_with_empty_id_dropped :
    (∃ n ∈ cexData.nodes, n.id = cexConn.source_id) ∧
    (∃ n ∈ cexData.nodes, n.id = cexConn.target_id) ∧
    cexConn ∈ cexData.connections ∧
    connLine? cexData.nodes cexConn = none ∧
    (cexData.connections.filterMap (connLine? cexData.nodes)).length = 0 := by
  decide

/-- C3 amended: every connection referencing a missing source or target id is
excluded from the compiled document; compilation always succeeds, every node
is emitted, and every remaining valid connection is emitted provided its
endpoint ids are non-empty strings (an endpoint equal to the empty string is
dropped by the Python truthiness test even when a node carries that id). -/
theorem invalid_connection_dropped_valid_kept (d : DiagramData)
    (c : ConnectionModel) (hc : c ∈ d.connections) :
    (((∀ n ∈ d.nodes, n.id ≠ c.source_id) ∨ (∀ n ∈ d.nodes, n.id ≠ c.target_id)) →
      connLine? d.nodes c = none) ∧
    (∀ n ∈ d.nodes, nodeLine n ∈ dot_commands d) ∧
    ((∃ n ∈ d.nodes, n.id = c.source_id) → (∃ n ∈ d.nodes, n.id = c.target_id) →
      c.source_id ≠ "" → c.target_id ≠ "" →
      ∃ line, connLine? d.nodes c = some line ∧ line ∈ dot_commands d) := by
  refine ⟨?_, ?_, ?_⟩
  · intro hbad
    rcases hbad with hsrc | htgt
    · unfold connLine?
      rw [node_id_map_get_eq_none d.nodes c.source_id hsrc]
    · unfold connLine?
      rw [node_id_map_get_eq_none d.nodes c.target_id htgt]
      cases node_id_map_get d.nodes c.source_id <;> rfl
  · intro n hn
    have hmem : nodeLine n ∈ d.nodes.map nodeLine := List.mem_map_of_mem nodeLine hn
    simp only [dot_commands, List.mem_append]
    exact Or.inl (Or.inl (Or.inr hmem))
  · intro hsrc htgt hse hte
    have hs := node_id_map_get_eq_some d.nodes c.source_id hsrc
    have ht := node_id_map_get_eq_some d.nodes c.target_id htgt
    have hline : connLine? d.nodes c =
        some (edgeLineStr (sanitizeId c.source_id) (sanitizeId c.target_id)
          (connAttrs c).1 "normal" (connAttrs c).2.1 (connAttrs c).2.2 "dir=forward") := by
      unfold connLine?
      rw [hs, ht]
      dsimp only
      rw [if_neg (not_or.mpr ⟨sanitizeId_ne_empty c.source_id hse,
        sanitizeId_ne_empty c.target_id hte⟩)]
    refine ⟨_, hline, ?_⟩
    have hmem : edgeLineStr (sanitizeId c.source_id) (sanitizeId c.target_id)
        (connAttrs c).1 "normal" (connAttrs c).2.1 (connAttrs c).2.2 "dir=forward" ∈
        d.connections.filterMap (connLine? d.nodes) :=
      List.mem_filterMap.mpr ⟨c, hc, hline⟩
    simp only [dot_commands, List.mem_append]
    exact Or.inl (Or.inr hmem)

/-- Witness for C3 (amended) at the request wD1 and its connection wConn,
whose endpoints both resolve to the non-empty id of the sole node. -/
theorem invalid_connection_dropped_valid_kept_w :
    ∃ line, connLine? wD1.nodes wConn = some line ∧ line ∈ dot_commands wD1 :=
  (invalid_connection_dropped_valid_kept wD1 wConn (by decide)).2.2
    (by decide) (by decide) (by decide) (by decide)

/-- filterMap keeps the length of a list on which the function always
answers some. -/
theorem length_filterMap_of_isSome {α β : Type} (f : α → Option β) (l : List α)
    (h : ∀ x ∈ l, (f x).isSome = true) : (l.filterMap f).length = l.length := by
  induction l with
  | nil => rfl
  | cons a as ih =>
    obtain ⟨b, hb⟩ := Option.isSome_iff_exists.mp (h a (List.mem_cons_self a as))
    rw [List.filterMap_cons, hb, List.length_cons, List.length_cons,
      ih (fun x hx => h x (List.mem_cons_of_mem a hx))]

/-- C6: for every request with exactly 10 nodes of the canonical example's
listed types (every node's type among server, branch, headquarters,
db_management, database) and exactly 9 connections all of whose endpoints
resolve, the compiled command list carries exactly 10 node declarations plus
the footer node, exactly 9 edge declarations, a title line that contains the
company name, and the constraint pinning footer_description to the sink rank
of the top-to-bottom layout. (The per-type tallies the spec lists for the
example — 1, 4, 1, 1 and 4 — sum to 11 and so cannot all hold of a 10-node
list; the shape is therefore taken as: each type is one of the listed
five.) -/
theorem canonical_shape_expected_document (d : DiagramData)
    (hn : d.nodes.length = 10)
    (htypes : ∀ n ∈ d.nodes,
      n.type ∈ ["server", "branch", "headquarters", "db_management", "database"])
    (hc : d.connections.length = 9)
    (hr : ∀ c ∈ d.connections, (connLine? d.nodes c).isSome = true) :
    (d.nodes.map nodeLine).length = 10 ∧
    footerLine d.general_network_description ∈ dot_commands d ∧
    (d.connections.filterMap (connLine? d.nodes)).length = 9 ∧
    ("  label=\"" ++ d.company_name ++ "\";") ∈ dot_commands d ∧
    (∃ pre post : String,
      ("  label=\"" ++ d.company_name ++ "\";") = pre ++ d.company_name ++ post) ∧
    rankSinkLine ∈ dot_commands d := by
  refine ⟨?_, ?_, ?_, ?_, ⟨"  label=\"", "\";", rfl⟩, ?_⟩
  · rw [List.length_map, hn]
  · simp [dot_commands]
  · rw [length_filterMap_of_isSome _ _ hr, hc]
  · simp [dot_commands, headerLines]
  · simp [dot_commands]

/-- exampleNodes: a canonical example payload's node list — one server, four
branches, one headquarters, one db_management, four databases. -/
def exampleNodes : List NodeModel :=
  [⟨"Servidor Central", "Servidor Central", "server", false⟩,
   ⟨"Sucursal Merida", "Sucursal Merida", "branch", true⟩,
   ⟨"Sucursal Cancun", "Sucursal Cancun", "branch", true⟩,
   ⟨"Sucursal Valladolid", "Sucursal Valladolid", "branch", true⟩,
   ⟨"Sucursal Tizimin", "Sucursal Tizimin", "branch", true⟩,
   ⟨"Yucatan-HQ", "Yucatan HQ", "headquarters", false⟩,
   ⟨"Gestion BD", "Gestion BD", "db_management", false⟩,
   ⟨"BD Merida", "BD Merida", "database", false⟩,
   ⟨"BD Cancun", "BD Cancun", "database", false⟩,
   ⟨"BD Valladolid", "BD Valladolid", "database", false⟩]

/-- exampleConnections: nine connections between exampleNodes ids, all of
whose endpoints resolve. -/
def exampleConnections : List ConnectionModel :=
  [⟨"Sucursal Merida", "Servidor Central", "Ventas", "sales_report", "unidirectional"⟩,
   ⟨"Sucursal Cancun", "Servidor Central", "Ventas", "sales_report", "unidirectional"⟩,
   ⟨"Sucursal Valladolid", "Servidor Central", "Inventario", "inventory_report", "unidirectional"⟩,
   ⟨"Sucursal Tizimin", "Servidor Central", "IP", "network", "unidirectional"⟩,
   ⟨"Servidor Central", "Yucatan-HQ", "Datos Maestros", "master_data_replication", "bidirectional"⟩,
   ⟨"Yucatan-HQ", "Gestion BD", "", "management_link", "unidirectional"⟩,
   ⟨"Sucursal Merida", "BD Merida", "", "local_db_access", "unidirectional"⟩,
   ⟨"Sucursal Cancun", "BD Cancun", "", "local_db_access", "unidirectional"⟩,
   ⟨"Sucursal Valladolid", "BD Valladolid", "", "local_db_access", "unidirectional"⟩]

/-- exampleData: the canonical example request. -/
def exampleData : DiagramData :=
  ⟨"Arquitectura de Sucursales Distribuidas", exampleNodes, exampleConnections,
   "Red de sucursales con replica de datos maestros."⟩

/-- Witness for C6 at the canonical example exampleData. -/
theorem canonical_shape_expected_document_w :
    (exampleData.nodes.map nodeLine).length = 10 ∧
    footerLine exampleData.general_network_description ∈ dot_commands exampleData ∧
    (exampleData.connections.filterMap (connLine? exampleData.nodes)).length = 9 ∧
    ("  label=\"" ++ exampleData.company_name ++ "\";") ∈ dot_commands exampleData ∧
    (∃ pre post : String,
      ("  label=\"" ++ exampleData.company_name ++ "\";") =
        pre ++ exampleData.company_name ++ post) ∧
    rankSinkLine ∈ dot_commands exampleData :=
  canonical_shape_expected_document exampleData (by decide) (by decide) (by decide)
    (by decide)

/-- A node declaration always differs from the invisible ordering edge: its
third character is a double quote, the edge's is Y. -/
theorem nodeDeclStr_ne_invis (gid lab shape fillcolor fontcolor : String) :
    nodeDeclStr gid lab shape fillcolor fontcolor ≠ invisEdgeLine := by
  intro h
  have h3 : invisEdgeLine.data.get? 2 = some '"' := by rw [← h]; rfl
  exact absurd h3 (by decide)

/-- An edge declaration always differs from the invisible ordering edge: its
third character is a double quote, the invisible edge's is Y. -/
theorem edgeLineStr_ne_invis (src tgt lab arrowhead color style dir_attr : String) :
    edgeLineStr src tgt lab arrowhead color style dir_attr ≠ invisEdgeLine := by
  intro h
  have h3 : invisEdgeLine.data.get? 2 = some '"' := by rw [← h]; rfl
  exact absurd h3 (by decide)

/-- The title line always differs from the invisible ordering edge: its third
character is l, the edge's is Y. -/
theorem titleLine_ne_invis (s : String) :
    ("  label=\"" ++ s ++ "\";") ≠ invisEdgeLine := by
  intro h
  have h3 : invisEdgeLine.data.get? 2 = some 'l' := by rw [← h]; rfl
  exact absurd h3 (by decide)

/-- The footer node always differs from the invisible ordering edge: its
third character is f, the edge's is Y. -/
theorem footerLine_ne_invis (s : String) : footerLine s ≠ invisEdgeLine := by
  intro h
  have h3 : invisEdgeLine.data.get? 2 = some 'f' := by rw [← h]; rfl
  exact absurd h3 (by decide)

/-- C10: for every request — with no hypothesis at all on its nodes, so also
when no node's sanitized id equals Yucatan_HQ — the compiled command list
pins footer_description to the sink rank and contains exactly one invisible
ordering edge into the footer node, and that edge's source is the fixed
hardcoded anchor identifier Yucatan_HQ. -/
theorem footer_pinned_anchor_hardcoded (d : DiagramData) :
    rankSinkLine ∈ dot_commands d ∧
    (dot_commands d).count invisEdgeLine = 1 ∧
    invisEdgeLine = "  Yucatan_HQ -> footer_description [style=invis];" := by
  refine ⟨by simp [dot_commands], ?_, rfl⟩
  have h1 : (headerLines d.company_name).count invisEdgeLine = 0 := by
    rw [List.count_eq_zero]
    intro hmem
    simp only [headerLines, List.mem_cons, List.not_mem_nil, or_false] at hmem
    rcases hmem with h | h | h | h | h | h | h | h | h
    · exact absurd h (by decide)
    · exact absurd h (by decide)
    · exact absurd h (by decide)
    · exact absurd h (by decide)
    · exact absurd h (by decide)
    · exact absurd h (by decide)
    · exact absurd h (by decide)
    · exact titleLine_ne_invis d.company_name h.symm
    · exact absurd h (by decide)
  have h2 : (d.nodes.map nodeLine).count invisEdgeLine = 0 := by
    rw [List.count_eq_zero]
    intro hmem
    obtain ⟨n, _, heq⟩ := List.mem_map.mp hmem
    exact nodeDeclStr_ne_invis (sanitizeId n.id) (nodeAttrs n).1 (nodeAttrs n).2.1
      (nodeAttrs n).2.2.1 (nodeAttrs n).2.2.2 heq
  have h3 : (d.connections.filterMap (connLine? d.nodes)).count invisEdgeLine = 0 := by
    rw [List.count_eq_zero]
    intro hmem
    obtain ⟨c, _, hcl⟩ := List.mem_filterMap.mp hmem
    obtain ⟨s, t, hst⟩ := connLine?_shape d.nodes c invisEdgeLine hcl
    exact edgeLineStr_ne_invis s t (connAttrs c).1 "normal" (connAttrs c).2.1
      (connAttrs c).2.2 "dir=forward" hst.symm
  have hf : (footerLine d.general_network_description == invisEdgeLine) = false :=
    beq_eq_false_iff_ne.mpr (footerLine_ne_invis d.general_network_description)
  have h4 : ([footerLine d.general_network_description, rankSinkLine, invisEdgeLine,
      "\x7d"]).count invisEdgeLine = 1 := by
    simp only [List.count_cons, List.count_nil, hf]
    decide
  unfold dot_commands
  rw [List.count_append, List.count_append, List.count_append, h1, h2, h3, h4]

end StudenTools
